import Mathlib

/-!
Overseer protocol probes (IMAPS, SMTP, SSH).

A shallow embedding of `protocols/imaps_probe.go`, `protocols/smtp_probe.go`
and `protocols/ssh_probe.go`.

Modelling conventions.

* A Go `string` is a Lean `String`; byte-wise searches for ASCII patterns
  (`":"`, `"\n"`, digits, signs) are done character-wise.
* A Go `map[string]string` is an association list; indexing a missing key
  yields the empty string, as in Go.
* Go `int` is the 64-bit signed integer; values are carried as `Int` and the
  range checks of `strconv` are explicit.
* The network is an explicit parameter (`Network`): what a dial answers and
  what the peer sends.  Every network action of a run is appended to a trace
  and the number of connections currently open is threaded through the run.
* A successful `client.DialWithDialerTLS` hands back a client that holds an
  open connection; a failed one reports whether it failed after the TCP
  connect, in which case the socket it opened is still open.
* `ParseArguments` is not part of the three files; the probes that call it
  take it as a parameter.
-/

namespace Overseer

/-! ## Errors -/

/-- The `error` values a probe can return. -/
inductive Error where
  /-- A `*strconv.NumError` whose `Err` is `strconv.ErrSyntax`. -/
  | invalid (fn : String) (num : String)
  /-- A `*strconv.NumError` whose `Err` is `strconv.ErrRange`. -/
  | outOfRange (fn : String) (num : String)
  /-- An error reported by the network stack (dial, handshake, read). -/
  | net (msg : String)
  /-- The value of `errors.New(msg)`. -/
  | text (msg : String)
  deriving DecidableEq, Repr

/-- The error is a `*strconv.NumError`, that is, a failure to parse a number. -/
def Error.isNumError : Error → Bool
  | .invalid _ _ => true
  | .outOfRange _ _ => true
  | _ => false

/-! ## `strconv.Atoi` -/

/-- The size in bits of Go's `int` (`strconv.IntSize`) on 64-bit targets. -/
def IntSize : Nat := 64

/-- The largest `uint64`. -/
def maxUint64 : Nat := 2 ^ 64 - 1

/-- The digit loop of `strconv.ParseUint(s, 10, 0)`: `n` is the value read so
far.  Returns the value and the kind of failure, if any (`false` for a
syntax error, `true` for a range error). -/
def parseUintLoop : List Char → Nat → Nat × Option Bool
  | [], n => (n, none)
  | c :: cs, n =>
    if '0' ≤ c ∧ c ≤ '9' then
      let d := c.toNat - '0'.toNat
      -- cutoff: n * 10 overflows
      if n ≥ maxUint64 / 10 + 1 then (maxUint64, some true)
      else
        let n1 := n * 10 + d
        if n1 > maxUint64 then (maxUint64, some true)
        else parseUintLoop cs n1
    else (0, some false)

/-- Go `strconv.ParseUint(s, 10, 0)`. -/
def ParseUint (s : List Char) : Nat × Option Bool :=
  match s with
  | [] => (0, some false)
  | _ :: _ => parseUintLoop s 0

/-- Go `strconv.ParseInt(s, 10, 0)` on the characters of `s0`; the error kind
is `false` for a syntax error and `true` for a range error. -/
def ParseInt (s0 : List Char) : Int × Option Bool :=
  match s0 with
  | [] => (0, some false)
  | c :: rest =>
    let neg := c = '-'
    let s := if c = '+' ∨ c = '-' then rest else s0
    match ParseUint s with
    | (_, some false) => (0, some false)
    | (un, _) =>
      let cutoff : Nat := 2 ^ (IntSize - 1)
      if ¬ neg ∧ un ≥ cutoff then ((cutoff : Int) - 1, some true)
      else if neg ∧ un > cutoff then (-(cutoff : Int), some true)
      else (if neg then -(un : Int) else (un : Int), none)

/-- Go `strconv.Atoi`, which its documentation defines as
`ParseInt(s, 10, 0)` converted to `int`, with the error's `Func` set to
`"Atoi"`. -/
def Atoi (s : String) : Int × Option Error :=
  match ParseInt s.data with
  | (i, none) => (i, none)
  | (i, some false) => (i, some (Error.invalid "Atoi" s))
  | (i, some true) => (i, some (Error.outOfRange "Atoi" s))

/-! ## `strings.Contains`, `fmt.Sprintf`, `bufio.Reader.ReadString` -/

/-- Whether the list `p` is an initial segment of the list `s`. -/
def startsWith : List Char → List Char → Bool
  | _, [] => true
  | [], _ :: _ => false
  | c :: cs, p :: ps => decide (c = p) && startsWith cs ps

/-- Whether `sub` occurs in `s` at some position. -/
def containsChars : List Char → List Char → Bool
  | [], sub => startsWith [] sub
  | c :: cs, sub => startsWith (c :: cs) sub || containsChars cs sub

/-- Go `strings.Contains(s, substr)`. -/
def stringsContains (s substr : String) : Bool :=
  containsChars s.data substr.data

/-- The text `%d` prints for an `int`. -/
def fmtInt (p : Int) : String :=
  if p < 0 then "-" ++ Nat.repr p.natAbs else Nat.repr p.toNat

/-- Go `fmt.Sprintf("%s:%d", target, port)`. -/
def sprintfHostPort (target : String) (port : Int) : String :=
  target ++ ":" ++ fmtInt port

/-- Go `fmt.Sprintf("[%s]:%d", target, port)`. -/
def sprintfBracketHostPort (target : String) (port : Int) : String :=
  "[" ++ target ++ "]:" ++ fmtInt port

/-- The read loop of `ReadString(delim)` over the bytes the peer sends before
the stream ends: the bytes up to and including the first `delim`, and whether
the delimiter was found. -/
def readUntil (delim : Char) : List Char → List Char × Bool
  | [] => ([], false)
  | c :: cs =>
    if c = delim then ([c], true)
    else
      let r := readUntil delim cs
      (c :: r.1, r.2)

/-! ## The network -/

/-- An established connection, seen from the probe: the bytes the peer sends
and the error a read reports once they are exhausted (`io.EOF`, a reset). -/
structure Conn where
  incoming : String
  ending : String
  deriving DecidableEq, Repr

/-- Go `bufio.NewReader(conn).ReadString(delim)`: the data read, and the error
when the stream ends before a delimiter. -/
def Conn.ReadString (conn : Conn) (delim : Char) : String × Option Error :=
  match readUntil delim conn.incoming.data with
  | (line, true) => (String.mk line, none)
  | (line, false) => (String.mk line, some (Error.net conn.ending))

/-- A failed `client.DialWithDialerTLS`: the error text, and whether the
failure came after the TCP connect (a rejected certificate, a bad greeting),
which leaves the socket open. -/
structure TLSFailure where
  msg : String
  socketOpen : Bool
  deriving DecidableEq, Repr

/-- The environment of a run.  `tcp timeout address` is the answer of
`net.Dialer{Timeout: timeout}.Dial("tcp", address)`; `imap timeout address
insecureSkipVerify` is the failure, if any, of `client.DialWithDialerTLS`. -/
structure Network where
  tcp : Int → String → Except String Conn
  imap : Int → String → Bool → Option TLSFailure

/-- A network action performed by a probe. -/
inductive Event where
  /-- A call of `d.Dial("tcp", address)` with the dialer's timeout. -/
  | dial (timeout : Int) (address : String)
  /-- A call of `client.DialWithDialerTLS(dial, address, tls)`; the flag is
  the `InsecureSkipVerify` of the TLS configuration passed (`false` for `nil`). -/
  | dialTLS (timeout : Int) (address : String) (insecureSkipVerify : Bool)
  /-- A `ReadString` on the connection. -/
  | read
  /-- A `conn.Close()`. -/
  | close
  deriving DecidableEq, Repr

/-- The network state threaded through a run: the actions so far and the
number of connections that are open. -/
structure World where
  trace : List Event
  openConns : Nat
  deriving DecidableEq, Repr

/-- The state before a run. -/
def World.init : World := ⟨[], 0⟩

/-- Dialing TCP: the call is recorded; a successful dial opens a connection. -/
def World.dial (w : World) (net : Network) (timeout : Int) (address : String) :
    World × Except String Conn :=
  match net.tcp timeout address with
  | .ok conn => (⟨w.trace ++ [Event.dial timeout address], w.openConns + 1⟩, .ok conn)
  | .error e => (⟨w.trace ++ [Event.dial timeout address], w.openConns⟩, .error e)

/-- Dialing IMAP over TLS: the call is recorded; a successful dial leaves the
client's connection open, and so does a dial that fails after the TCP
connect. -/
def World.dialTLS (w : World) (net : Network) (timeout : Int) (address : String)
    (insecureSkipVerify : Bool) : World × Option TLSFailure :=
  match net.imap timeout address insecureSkipVerify with
  | none => (⟨w.trace ++ [Event.dialTLS timeout address insecureSkipVerify], w.openConns + 1⟩, none)
  | some e =>
    (⟨w.trace ++ [Event.dialTLS timeout address insecureSkipVerify],
      if e.socketOpen then w.openConns + 1 else w.openConns⟩, some e)

/-- Reading the banner from the connection. -/
def World.read (w : World) (conn : Conn) (delim : Char) : World × (String × Option Error) :=
  (⟨w.trace ++ [Event.read], w.openConns⟩, conn.ReadString delim)

/-- Closing the connection. -/
def World.close (w : World) : World :=
  ⟨w.trace ++ [Event.close], w.openConns - 1⟩

/-- What a run returns and the network state it leaves. -/
structure Outcome where
  err : Option Error
  world : World
  deriving DecidableEq, Repr

/-! ## Shared types of the package -/

/-- Go `map[string]string`. -/
abbrev ArgMap := List (String × String)

/-- Go `m[k]`: the value bound to `k`, or `""` when `k` is absent. -/
def ArgMap.index (m : ArgMap) (k : String) : String :=
  match m.lookup k with
  | some v => v
  | none => ""

/-- The `TestOptions` of the package; the probes read its `Timeout`. -/
structure TestOptions where
  Timeout : Int
  deriving DecidableEq, Repr

/-- The `test.Test` handed to `SMTPTest.RunTest`; the probe reads its
`Arguments`. -/
structure Test where
  Arguments : ArgMap
  deriving DecidableEq, Repr

/-! ## smtp_probe.go -/

/-- The receiver `SMTPTest` has no fields. -/
structure SMTPTest where
  deriving DecidableEq, Repr

/-- The source's `SMTPTest.Arguments`. -/
def SMTPTest.Arguments : ArgMap := [("port", "^[0-9]+$")]

/-- The source's `SMTPTest.RunTest`. -/
def SMTPTest.RunTest (tst : Test) (target : String) (opts : TestOptions)
    (net : Network) : Outcome :=
  let w := World.init
  -- port := 25; if tst.Arguments["port"] != "" { port, err = strconv.Atoi(...) }
  let parsed : Int × Option Error :=
    if tst.Arguments.index "port" ≠ "" then Atoi (tst.Arguments.index "port") else (25, none)
  match parsed with
  | (_, some err) => ⟨some err, w⟩
  | (port, none) =>
    let address := sprintfHostPort target port
    let address := if stringsContains target ":" then sprintfBracketHostPort target port
      else address
    match w.dial net opts.Timeout address with
    | (w, .error e) => ⟨some (Error.net e), w⟩
    | (w, .ok conn) =>
      match w.read conn '\n' with
      | (w, (_, some err)) => ⟨some err, w⟩
      | (w, (banner, none)) =>
        let w := w.close
        if ¬ stringsContains banner "SMTP" then
          ⟨some (Error.text "Banner doesn't look like an SMTP server"), w⟩
        else ⟨none, w⟩

/-! ## imaps_probe.go -/

/-- The source's `IMAPSTest`. -/
structure IMAPSTest where
  input : String
  options : TestOptions
  deriving DecidableEq, Repr

/-- The source's `IMAPSTest.SetLine`. -/
def IMAPSTest.SetLine (s : IMAPSTest) (input : String) : IMAPSTest :=
  { s with input := input }

/-- The source's `IMAPSTest.SetOptions`. -/
def IMAPSTest.SetOptions (s : IMAPSTest) (opts : TestOptions) : IMAPSTest :=
  { s with options := opts }

/-- The source's `IMAPSTest.RunTest`; the receiver after the call is returned
with the outcome. -/
def IMAPSTest.RunTest (ParseArguments : String → ArgMap) (s : IMAPSTest)
    (target : String) (net : Network) : IMAPSTest × Outcome :=
  let w := World.init
  let out := ParseArguments s.input
  let parsed : Int × Option Error :=
    if out.index "port" ≠ "" then Atoi (out.index "port") else (993, none)
  match parsed with
  | (_, some err) => (s, ⟨some err, w⟩)
  | (port, none) =>
    let insecure := if out.index "tls" = "insecure" then true else false
    let address := sprintfHostPort target port
    let address := if stringsContains target ":" then sprintfBracketHostPort target port
      else address
    let r := if insecure then w.dialTLS net s.options.Timeout address true
      else w.dialTLS net s.options.Timeout address false
    match r with
    | (w, some e) => (s, ⟨some (Error.net e.msg), w⟩)
    | (w, none) => (s, ⟨none, w⟩)

/-! ## ssh_probe.go -/

/-- The source's `SSHTest`. -/
structure SSHTest where
  input : String
  options : TestOptions
  deriving DecidableEq, Repr

/-- The source's `SSHTest.SetLine`. -/
def SSHTest.SetLine (s : SSHTest) (input : String) : SSHTest :=
  { s with input := input }

/-- The source's `SSHTest.SetOptions`. -/
def SSHTest.SetOptions (s : SSHTest) (opts : TestOptions) : SSHTest :=
  { s with options := opts }

/-- The source's `SSHTest.RunTest`; the receiver after the call is returned
with the outcome. -/
def SSHTest.RunTest (ParseArguments : String → ArgMap) (s : SSHTest)
    (target : String) (net : Network) : SSHTest × Outcome :=
  let w := World.init
  let out := ParseArguments s.input
  let parsed : Int × Option Error :=
    if out.index "port" ≠ "" then Atoi (out.index "port") else (22, none)
  match parsed with
  | (_, some err) => (s, ⟨some err, w⟩)
  | (port, none) =>
    let address := sprintfHostPort target port
    let address := if stringsContains target ":" then sprintfBracketHostPort target port
      else address
    match w.dial net s.options.Timeout address with
    | (w, .error e) => (s, ⟨some (Error.net e), w⟩)
    | (w, .ok conn) =>
      match w.read conn '\n' with
      | (w, (_, some err)) => (s, ⟨some err, w⟩)
      | (w, (banner, none)) =>
        let w := w.close
        if ¬ stringsContains banner "OpenSSH" then
          (s, ⟨some (Error.text "Banner doesn't look like OpenSSH"), w⟩)
        else (s, ⟨none, w⟩)

/-! ## Sample environments -/

/-- A network on which every TCP dial connects to a peer that sends `banner`
and then closes, and every IMAP dial succeeds. -/
def Network.serving (banner : String) : Network :=
  ⟨fun _ _ => .ok ⟨banner, "EOF"⟩, fun _ _ _ => none⟩

/-- A network on which every dial is refused. -/
def Network.refusing : Network :=
  ⟨fun _ _ => .error "connection refused", fun _ _ _ => some ⟨"connection refused", false⟩⟩

/-- A network whose IMAP server presents a certificate that only passes when
verification is skipped; TCP peers send `banner`. -/
def Network.selfSigned (banner : String) : Network :=
  ⟨fun _ _ => .ok ⟨banner, "EOF"⟩,
   fun _ _ insecure =>
     if insecure then none else some ⟨"x509: certificate signed by unknown authority", true⟩⟩

/-- A network whose dialer rejects the address before opening a socket, as
`net.Dial` does for a port outside `0..65535`. -/
def Network.invalidPort : Network :=
  ⟨fun _ _ => .error "invalid port", fun _ _ _ => some ⟨"invalid port", false⟩⟩

/-- A parser for the instruction line that binds every line to the same map. -/
def constArguments (m : ArgMap) : String → ArgMap := fun _ => m

/-! ## Notions the statements use -/

/-- An ASCII decimal digit. -/
def IsDigit (c : Char) : Prop := '0' ≤ c ∧ c ≤ '9'

instance (c : Char) : Decidable (IsDigit c) := by unfold IsDigit; infer_instance

/-- A non-empty run of ASCII decimal digits: the language of `^[0-9]+$`. -/
def AllDigits (l : List Char) : Prop := l ≠ [] ∧ ∀ c ∈ l, IsDigit c

instance (l : List Char) : Decidable (AllDigits l) := by unfold AllDigits; infer_instance

/-- The number read from the digits `cs` after the value `n`. -/
def valueFrom (n : Nat) (cs : List Char) : Nat :=
  cs.foldl (fun v c => v * 10 + (c.toNat - '0'.toNat)) n

/-- The number a run of decimal digits denotes. -/
def digitsValue (cs : List Char) : Nat := valueFrom 0 cs

/-- The integer an optionally signed run of decimal digits denotes; `none`
for any other text. -/
def literalValue (s : List Char) : Option Int :=
  match s with
  | [] => none
  | c :: rest =>
    if c = '+' then (if AllDigits rest then some (digitsValue rest : Int) else none)
    else if c = '-' then (if AllDigits rest then some (-(digitsValue rest : Int)) else none)
    else if AllDigits (c :: rest) then some (digitsValue (c :: rest) : Int) else none

/-- The text is an integer literal: an optional sign and decimal digits. -/
def IsIntegerLiteral (s : String) : Prop := (literalValue s.data).isSome

instance (s : String) : Decidable (IsIntegerLiteral s) := by
  unfold IsIntegerLiteral; infer_instance

/-- The text is an integer literal whose value fits Go's 64-bit `int`. -/
def FitsInt (s : String) (v : Int) : Prop :=
  literalValue s.data = some v ∧ -(2 : Int) ^ 63 ≤ v ∧ v < (2 : Int) ^ 63

/-- The list `sub` occurs in the list `l`. -/
def Occurs (sub l : List Char) : Prop := ∃ pre post, l = pre ++ sub ++ post

/-- The bytes received contain a newline, and the part up to and including
the first newline contains `S`. -/
def FirstLineHas (S : String) (bytes : String) : Prop :=
  ∃ line rest, bytes.data = line ++ '\n' :: rest ∧ '\n' ∉ line ∧ Occurs S.data (line ++ ['\n'])

/-- The address the probes are to dial for a target and a port. -/
def expectedAddress (t : String) (p : Int) : String :=
  if ':' ∈ t.data then "[" ++ t ++ "]:" ++ fmtInt p else t ++ ":" ++ fmtInt p

/-- The port a run settles on is `p`: the protocol's default when the `port`
argument is empty, the number `Atoi` reads from it otherwise. -/
def EffectivePort (dflt : Int) (m : ArgMap) (p : Int) : Prop :=
  (m.index "port" = "" ∧ p = dflt) ∨ (m.index "port" ≠ "" ∧ Atoi (m.index "port") = (p, none))

/-! ## Auxiliary definitions for the proofs -/

/-- The body of `ParseInt` after the sign has been removed. -/
def signedResult (neg : Prop) [Decidable neg] (r : Nat × Option Bool) : Int × Option Bool :=
  match r with
  | (_, some false) => (0, some false)
  | (un, _) =>
    let cutoff : Nat := 2 ^ (IntSize - 1)
    if ¬ neg ∧ un ≥ cutoff then ((cutoff : Int) - 1, some true)
    else if neg ∧ un > cutoff then (-(cutoff : Int), some true)
    else (if neg then -(un : Int) else (un : Int), none)

/-- The port a probe settles on: the parse of the `port` argument when it is
not empty, the protocol's default otherwise. -/
def resolvePort (dflt : Int) (m : ArgMap) : Int × Option Error :=
  if m.index "port" ≠ "" then Atoi (m.index "port") else (dflt, none)

/-- The run of a TCP probe once the port is known: dial, read a line, close,
look for `S`. -/
def bannerProbe (S msg target : String) (port timeout : Int) (net : Network) : Outcome :=
  match net.tcp timeout (expectedAddress target port) with
  | .error e => ⟨some (Error.net e), ⟨[Event.dial timeout (expectedAddress target port)], 0⟩⟩
  | .ok conn =>
    match conn.ReadString '\n' with
    | (_, some err) =>
      ⟨some err, ⟨[Event.dial timeout (expectedAddress target port), Event.read], 1⟩⟩
    | (banner, none) =>
      if stringsContains banner S then
        ⟨none, ⟨[Event.dial timeout (expectedAddress target port), Event.read, Event.close], 0⟩⟩
      else
        ⟨some (Error.text msg),
          ⟨[Event.dial timeout (expectedAddress target port), Event.read, Event.close], 0⟩⟩

/-- The run of the IMAPS probe once the port is known. -/
def tlsProbe (insecure : Bool) (target : String) (port timeout : Int) (net : Network) : Outcome :=
  match net.imap timeout (expectedAddress target port) insecure with
  | some e =>
    ⟨some (Error.net e.msg),
      ⟨[Event.dialTLS timeout (expectedAddress target port) insecure],
        if e.socketOpen then 1 else 0⟩⟩
  | none => ⟨none, ⟨[Event.dialTLS timeout (expectedAddress target port) insecure], 1⟩⟩

/-! ## Facts about the library models -/

theorem IsDigit.value_le {c : Char} (h : IsDigit c) : c.toNat - '0'.toNat ≤ 9 := by
  have h2 : c.val.toNat ≤ 57 := h.2
  show c.val.toNat - 48 ≤ 9
  omega

theorem IsDigit.ne_plus {c : Char} (h : IsDigit c) : c ≠ '+' := by
  rintro rfl
  exact absurd h (by decide)

theorem IsDigit.ne_minus {c : Char} (h : IsDigit c) : c ≠ '-' := by
  rintro rfl
  exact absurd h (by decide)

theorem le_valueFrom (cs : List Char) : ∀ n, n ≤ valueFrom n cs := by
  induction cs with
  | nil => intro n; exact le_refl n
  | cons c cs ih =>
    intro n
    have h := ih (n * 10 + (c.toNat - '0'.toNat))
    simp only [valueFrom, List.foldl_cons] at h ⊢
    omega

theorem valueFrom_cons (n : Nat) (c : Char) (cs : List Char) :
    valueFrom n (c :: cs) = valueFrom (n * 10 + (c.toNat - '0'.toNat)) cs := rfl

theorem valueFrom_append (n : Nat) (as bs : List Char) :
    valueFrom n (as ++ bs) = valueFrom (valueFrom n as) bs := by
  simp [valueFrom, List.foldl_append]

theorem maxUint64_eq : maxUint64 = 18446744073709551615 := by decide

/-- On digits, the loop returns the number read when it fits `uint64`, and a
range error otherwise. -/
theorem parseUintLoop_digits (cs : List Char) : ∀ n, n ≤ maxUint64 → (∀ c ∈ cs, IsDigit c) →
    parseUintLoop cs n =
      if valueFrom n cs ≤ maxUint64 then (valueFrom n cs, none) else (maxUint64, some true) := by
  induction cs with
  | nil =>
    intro n hn _
    simp [parseUintLoop, valueFrom, hn]
  | cons c cs ih =>
    intro n hn h
    have hc : IsDigit c := h c (List.mem_cons_self _ _)
    have hcs : ∀ x ∈ cs, IsDigit x := fun x hx => h x (List.mem_cons_of_mem _ hx)
    have hd := hc.value_le
    have hge := le_valueFrom cs (n * 10 + (c.toNat - '0'.toNat))
    rw [valueFrom_cons]
    unfold IsDigit at hc
    simp only [parseUintLoop, hc, and_self, if_true]
    rw [maxUint64_eq] at hn ⊢
    by_cases h1 : n ≥ 18446744073709551615 / 10 + 1
    · have h2 : ¬ valueFrom (n * 10 + (c.toNat - '0'.toNat)) cs ≤ 18446744073709551615 := by
        omega
      simp only [h1, h2, if_true, if_false]
    · by_cases h3 : n * 10 + (c.toNat - '0'.toNat) > 18446744073709551615
      · have h2 : ¬ valueFrom (n * 10 + (c.toNat - '0'.toNat)) cs ≤ 18446744073709551615 := by
          omega
        simp only [h1, h2, h3, if_true, if_false]
      · simp only [h1, h3, if_false]
        have := ih (n * 10 + (c.toNat - '0'.toNat)) (by rw [maxUint64_eq]; omega) hcs
        rw [maxUint64_eq] at this
        exact this

/-- A character that is not a digit makes the loop fail. -/
theorem parseUintLoop_not_digits (cs : List Char) : ∀ n, ¬ (∀ c ∈ cs, IsDigit c) →
    (parseUintLoop cs n).2 ≠ none := by
  induction cs with
  | nil => intro n h; exact absurd (fun c hc => absurd hc (List.not_mem_nil c)) h
  | cons c cs ih =>
    intro n h
    by_cases hc : IsDigit c
    · have hcs : ¬ (∀ x ∈ cs, IsDigit x) := by
        intro hall
        apply h
        intro x hx
        rcases List.mem_cons.mp hx with rfl | hx
        · exact hc
        · exact hall x hx
      unfold IsDigit at hc
      simp only [parseUintLoop, hc, and_self, if_true]
      split
      · simp
      · split
        · simp
        · exact ih _ hcs
    · unfold IsDigit at hc
      simp [parseUintLoop, hc]

/-- The result of `ParseUint` on a non-empty run of digits. -/
theorem ParseUint_digits (cs : List Char) (h : AllDigits cs) :
    ParseUint cs =
      if digitsValue cs ≤ maxUint64 then (digitsValue cs, none) else (maxUint64, some true) := by
  obtain ⟨hne, hall⟩ := h
  cases cs with
  | nil => exact absurd rfl hne
  | cons c cs =>
    simp only [ParseUint, digitsValue]
    exact parseUintLoop_digits (c :: cs) 0 (Nat.zero_le _) hall

/-- The result of `ParseUint` on anything else is an error. -/
theorem ParseUint_not_digits (cs : List Char) (h : ¬ AllDigits cs) :
    (ParseUint cs).2 ≠ none := by
  cases cs with
  | nil => simp [ParseUint]
  | cons c cs =>
    simp only [ParseUint]
    apply parseUintLoop_not_digits
    intro hall
    exact h ⟨List.cons_ne_nil _ _, hall⟩

/-- An error of the loop is one of the two pairs `ParseUint` returns. -/
theorem parseUintLoop_error (cs : List Char) : ∀ n, (parseUintLoop cs n).2 ≠ none →
    parseUintLoop cs n = (0, some false) ∨ parseUintLoop cs n = (maxUint64, some true) := by
  induction cs with
  | nil => intro n h; simp [parseUintLoop] at h
  | cons c cs ih =>
    intro n h
    simp only [parseUintLoop] at h ⊢
    split
    · split
      · exact Or.inr rfl
      · split
        · exact Or.inr rfl
        · rename_i h1 h2 h3
          simp only [h1, h2, h3, if_true, if_false] at h
          exact ih _ h
    · exact Or.inl rfl

theorem ParseUint_error (cs : List Char) (h : (ParseUint cs).2 ≠ none) :
    ParseUint cs = (0, some false) ∨ ParseUint cs = (maxUint64, some true) := by
  cases cs with
  | nil => exact Or.inl rfl
  | cons c cs => exact parseUintLoop_error (c :: cs) 0 h

theorem ParseInt_cons (c : Char) (rest : List Char) :
    ParseInt (c :: rest) =
      signedResult (c = '-') (ParseUint (if c = '+' ∨ c = '-' then rest else c :: rest)) := by
  simp only [ParseInt, signedResult]

theorem signedResult_error (neg : Prop) [Decidable neg] (r : Nat × Option Bool)
    (h : r = (0, some false) ∨ r = (maxUint64, some true)) : (signedResult neg r).2 ≠ none := by
  rcases h with rfl | rfl
  · simp [signedResult]
  · by_cases hn : neg <;> simp [signedResult, hn, maxUint64_eq, IntSize]

theorem signedResult_digits (neg : Prop) [Decidable neg] (cs : List Char) (h : AllDigits cs) :
    signedResult neg (ParseUint cs) =
      if neg then
        (if digitsValue cs ≤ 2 ^ 63 then (-(digitsValue cs : Int), none)
         else (-(2 : Int) ^ 63, some true))
      else
        (if digitsValue cs < 2 ^ 63 then ((digitsValue cs : Int), none)
         else ((2 : Int) ^ 63 - 1, some true)) := by
  rw [ParseUint_digits cs h, maxUint64_eq]
  by_cases hn : neg
  · by_cases h1 : digitsValue cs ≤ 18446744073709551615
    · by_cases h2 : digitsValue cs ≤ 9223372036854775808
      · have h3 : ¬ 9223372036854775808 < digitsValue cs := by omega
        simp [signedResult, hn, h1, h2, h3, IntSize]
      · have h3 : 9223372036854775808 < digitsValue cs := by omega
        simp [signedResult, hn, h1, h2, h3, IntSize]
    · have h2 : ¬ digitsValue cs ≤ 9223372036854775808 := by omega
      simp [signedResult, hn, h1, h2, IntSize]
  · by_cases h1 : digitsValue cs ≤ 18446744073709551615
    · by_cases h2 : digitsValue cs < 9223372036854775808
      · have h3 : ¬ 9223372036854775808 ≤ digitsValue cs := by omega
        simp [signedResult, hn, h1, h2, h3, IntSize]
      · have h3 : 9223372036854775808 ≤ digitsValue cs := by omega
        simp [signedResult, hn, h1, h2, h3, IntSize]
    · have h2 : ¬ digitsValue cs < 9223372036854775808 := by omega
      simp [signedResult, hn, h1, h2, IntSize]

/-- On an integer literal, `ParseInt` returns its value when it fits `int`
and a range error otherwise. -/
theorem ParseInt_literal (s : List Char) (v : Int) (h : literalValue s = some v) :
    ParseInt s =
      if -(2 : Int) ^ 63 ≤ v ∧ v < (2 : Int) ^ 63 then (v, none)
      else (if v < 0 then -(2 : Int) ^ 63 else (2 : Int) ^ 63 - 1, some true) := by
  cases s with
  | nil => simp [literalValue] at h
  | cons c rest =>
    rw [ParseInt_cons]
    by_cases hp : c = '+'
    · subst hp
      simp only [literalValue, if_true] at h
      by_cases hd : AllDigits rest
      · simp only [hd, if_true, Option.some.injEq] at h
        subst h
        simp only [true_or, if_true]
        rw [signedResult_digits _ rest hd]
        simp only [show ¬ ('+' = '-') by decide, if_false]
        by_cases h2 : digitsValue rest < 9223372036854775808
        · have h4 : (digitsValue rest : Int) < 9223372036854775808 := by omega
          have h3 : -(9223372036854775808 : Int) ≤ (digitsValue rest : Int) := by omega
          simp [h2, h3, h4]
        · have h4 : ¬ (digitsValue rest : Int) < 9223372036854775808 := by omega
          have h5 : ¬ (digitsValue rest : Int) < 0 := by omega
          simp [h2, h4, h5]
      · simp [hd] at h
    · by_cases hm : c = '-'
      · subst hm
        simp only [literalValue, show ¬ ('-' = '+') by decide, if_false, if_true] at h
        by_cases hd : AllDigits rest
        · simp only [hd, if_true, Option.some.injEq] at h
          subst h
          simp only [or_true, if_true]
          rw [signedResult_digits _ rest hd]
          simp only [if_true]
          by_cases h2 : digitsValue rest ≤ 9223372036854775808
          · have h4 : -(digitsValue rest : Int) < 9223372036854775808 := by omega
            have h3 : -(9223372036854775808 : Int) ≤ -(digitsValue rest : Int) := by omega
            simp [h2, h3, h4]
          · have h3 : ¬ -(9223372036854775808 : Int) ≤ -(digitsValue rest : Int) := by omega
            have h5 : -(digitsValue rest : Int) < 0 := by omega
            simp [h2, h3, h5]
        · simp [hd] at h
      · simp only [literalValue, hp, hm, if_false] at h
        by_cases hd : AllDigits (c :: rest)
        · simp only [hd, if_true, Option.some.injEq] at h
          subst h
          simp only [hp, hm, or_self, if_false]
          rw [signedResult_digits _ (c :: rest) hd]
          simp only [hm, if_false]
          by_cases h2 : digitsValue (c :: rest) < 9223372036854775808
          · have h4 : (digitsValue (c :: rest) : Int) < 9223372036854775808 := by omega
            have h3 : -(9223372036854775808 : Int) ≤ (digitsValue (c :: rest) : Int) := by omega
            simp [h2, h3, h4]
          · have h4 : ¬ (digitsValue (c :: rest) : Int) < 9223372036854775808 := by omega
            have h5 : ¬ (digitsValue (c :: rest) : Int) < 0 := by omega
            simp [h2, h4, h5]
        · simp [hd] at h

/-- On any other text, `ParseInt` returns an error. -/
theorem ParseInt_not_literal (s : List Char) (h : literalValue s = none) :
    (ParseInt s).2 ≠ none := by
  cases s with
  | nil => simp [ParseInt]
  | cons c rest =>
    rw [ParseInt_cons]
    apply signedResult_error
    apply ParseUint_error
    apply ParseUint_not_digits
    intro hd
    by_cases hp : c = '+'
    · subst hp
      simp only [true_or, if_true] at hd
      simp [literalValue, hd] at h
    · by_cases hm : c = '-'
      · subst hm
        simp only [or_true, if_true] at hd
        simp [literalValue, hd] at h
      · simp only [hp, hm, or_self, if_false] at hd
        simp [literalValue, hp, hm, hd] at h

/-- `Atoi` returns the value of an integer literal that fits `int`. -/
theorem Atoi_fits (s : String) (v : Int) (h : FitsInt s v) : Atoi s = (v, none) := by
  obtain ⟨hl, hlo, hhi⟩ := h
  simp only [Atoi, ParseInt_literal s.data v hl, hlo, hhi, and_self, if_true]

/-- `Atoi` returns a `NumError` on every other text. -/
theorem Atoi_not_fits (s : String) (h : ¬ ∃ v, FitsInt s v) :
    ∃ e, (Atoi s).2 = some e ∧ e.isNumError = true := by
  have hne : (ParseInt s.data).2 ≠ none := by
    cases hl : literalValue s.data with
    | none => exact ParseInt_not_literal s.data hl
    | some v =>
      have hv : ¬ (-(2 : Int) ^ 63 ≤ v ∧ v < (2 : Int) ^ 63) := fun hr => h ⟨v, hl, hr.1, hr.2⟩
      rw [ParseInt_literal s.data v hl, if_neg hv]
      simp
  unfold Atoi
  rcases hr : ParseInt s.data with ⟨i, _ | b⟩
  · rw [hr] at hne
    exact absurd rfl hne
  · cases b
    · exact ⟨_, rfl, rfl⟩
    · exact ⟨_, rfl, rfl⟩

/-- `Atoi` succeeds exactly on the integer literals that fit `int`. -/
theorem Atoi_ok_iff (s : String) : (Atoi s).2 = none ↔ ∃ v, FitsInt s v := by
  constructor
  · intro h
    by_contra hn
    obtain ⟨e, he, _⟩ := Atoi_not_fits s hn
    rw [h] at he
    cases he
  · rintro ⟨v, hv⟩
    rw [Atoi_fits s v hv]

/-! ### Decimal text -/

theorem digitChar_isDigit (d : Nat) (h : d < 10) :
    IsDigit (Nat.digitChar d) ∧ (Nat.digitChar d).toNat - '0'.toNat = d := by
  unfold IsDigit
  interval_cases d <;> decide

/-- The digits `Nat.toDigitsCore` puts in front of `acc` are decimal digits
that denote `n`. -/
theorem toDigitsCore_digits (fuel : Nat) : ∀ (n : Nat) (acc : List Char), n < fuel →
    ∃ ds, Nat.toDigitsCore 10 fuel n acc = ds ++ acc ∧ AllDigits ds ∧ digitsValue ds = n := by
  induction fuel with
  | zero => intro n acc h; omega
  | succ fuel ih =>
    intro n acc h
    have hd := digitChar_isDigit (n % 10) (Nat.mod_lt _ (by decide))
    simp only [Nat.toDigitsCore]
    by_cases h0 : n / 10 = 0
    · refine ⟨[Nat.digitChar (n % 10)], by simp [h0], ⟨by simp, ?_⟩, ?_⟩
      · intro c hc
        rw [List.mem_singleton] at hc
        rw [hc]
        exact hd.1
      · simp only [digitsValue, valueFrom, List.foldl_cons, List.foldl_nil, hd.2]
        omega
    · obtain ⟨ds, he, hall, hv⟩ := ih (n / 10) (Nat.digitChar (n % 10) :: acc) (by omega)
      refine ⟨ds ++ [Nat.digitChar (n % 10)], by simp [h0, he], ⟨by simp, ?_⟩, ?_⟩
      · intro c hc
        rcases List.mem_append.mp hc with hc | hc
        · exact hall.2 c hc
        · rw [List.mem_singleton] at hc
          rw [hc]
          exact hd.1
      · unfold digitsValue at hv ⊢
        rw [valueFrom_append, hv]
        simp only [valueFrom, List.foldl_cons, List.foldl_nil, hd.2]
        omega

/-- The decimal text of a natural number is a run of digits denoting it. -/
theorem repr_digits (n : Nat) : AllDigits (Nat.repr n).data ∧ digitsValue (Nat.repr n).data = n := by
  obtain ⟨ds, he, hall, hv⟩ := toDigitsCore_digits (n + 1) n [] (Nat.lt_succ_self n)
  have : (Nat.repr n).data = ds := by
    show Nat.toDigits 10 n = ds
    unfold Nat.toDigits
    rw [he, List.append_nil]
  rw [this]
  exact ⟨hall, hv⟩

theorem repr_ne_empty (n : Nat) : Nat.repr n ≠ "" := by
  intro h
  have := (repr_digits n).1.1
  rw [h] at this
  exact this rfl

/-- A run of digits is an integer literal with the value the digits denote. -/
theorem literalValue_digits (cs : List Char) (h : AllDigits cs) :
    literalValue cs = some (digitsValue cs : Int) := by
  cases cs with
  | nil => exact absurd rfl h.1
  | cons c rest =>
    have hc : IsDigit c := h.2 c (List.mem_cons_self _ _)
    simp [literalValue, hc.ne_plus, hc.ne_minus, h]

/-- `Atoi` reads back the decimal text of every `n` below `2 ^ 63`. -/
theorem Atoi_repr (n : Nat) (h : n < 2 ^ 63) : Atoi (Nat.repr n) = ((n : Int), none) := by
  apply Atoi_fits
  obtain ⟨hall, hv⟩ := repr_digits n
  refine ⟨?_, ?_, ?_⟩
  · rw [literalValue_digits _ hall, hv]
  · omega
  · omega

/-! ### Substring search and line reading -/

theorem startsWith_iff (s p : List Char) : startsWith s p = true ↔ ∃ post, s = p ++ post := by
  induction p generalizing s with
  | nil => simp [startsWith]
  | cons x ps ih =>
    cases s with
    | nil => simp [startsWith]
    | cons c cs =>
      simp only [startsWith, Bool.and_eq_true, decide_eq_true_eq, ih, List.cons_append,
        List.cons.injEq]
      constructor
      · rintro ⟨h, post, hp⟩
        exact ⟨post, h, hp⟩
      · rintro ⟨post, h, hp⟩
        exact ⟨h, post, hp⟩

/-- The search of `strings.Contains` finds exactly the occurrences. -/
theorem containsChars_iff (s sub : List Char) : containsChars s sub = true ↔ Occurs sub s := by
  induction s with
  | nil =>
    simp only [containsChars, startsWith_iff, Occurs]
    constructor
    · rintro ⟨post, h⟩
      exact ⟨[], post, by simpa using h⟩
    · rintro ⟨pre, post, h⟩
      have h2 := h.symm
      simp only [List.append_eq_nil] at h2
      exact ⟨[], by simp [h2.1.2]⟩
  | cons c cs ih =>
    simp only [containsChars, Bool.or_eq_true, startsWith_iff, ih, Occurs]
    constructor
    · rintro (⟨post, h⟩ | ⟨pre, post, h⟩)
      · exact ⟨[], post, by simpa using h⟩
      · exact ⟨c :: pre, post, by simp [h]⟩
    · rintro ⟨pre, post, h⟩
      cases pre with
      | nil => exact Or.inl ⟨post, by simpa using h⟩
      | cons x pre =>
        simp only [List.cons_append, List.cons.injEq] at h
        exact Or.inr ⟨pre, post, by simpa using h.2⟩

/-- Searching for a one-character pattern is membership of the character. -/
theorem containsChars_singleton (s : List Char) (c : Char) :
    containsChars s [c] = true ↔ c ∈ s := by
  rw [containsChars_iff]
  constructor
  · rintro ⟨pre, post, h⟩
    rw [h]
    simp
  · intro h
    obtain ⟨pre, post, hs⟩ := List.append_of_mem h
    exact ⟨pre, post, by simp [hs]⟩

/-- The read stops after the first delimiter. -/
theorem readUntil_split (d : Char) (line rest : List Char) (h : d ∉ line) :
    readUntil d (line ++ d :: rest) = (line ++ [d], true) := by
  induction line with
  | nil => simp [readUntil]
  | cons c cs ih =>
    have hc : c ≠ d := fun hcd => h (by simp [hcd])
    have hcs : d ∉ cs := fun hm => h (List.mem_cons_of_mem _ hm)
    simp [readUntil, hc, ih hcs]

/-- A read that finds the delimiter has read the first line. -/
theorem readUntil_found (d : Char) (bs : List Char) (h : (readUntil d bs).2 = true) :
    ∃ line rest, bs = line ++ d :: rest ∧ d ∉ line ∧ (readUntil d bs).1 = line ++ [d] := by
  induction bs with
  | nil => simp [readUntil] at h
  | cons c cs ih =>
    by_cases hc : c = d
    · subst hc
      exact ⟨[], cs, by simp, by simp, by simp [readUntil]⟩
    · simp only [readUntil, hc, if_false] at h ⊢
      obtain ⟨line, rest, h1, h2, h3⟩ := ih h
      refine ⟨c :: line, rest, by simp [h1], ?_, by simp [h3]⟩
      intro hm
      rcases List.mem_cons.mp hm with hm | hm
      · exact hc hm.symm
      · exact h2 hm

/-- A read that does not find the delimiter saw none. -/
theorem readUntil_missing (d : Char) (bs : List Char) (h : (readUntil d bs).2 = false) :
    d ∉ bs := by
  induction bs with
  | nil => simp
  | cons c cs ih =>
    by_cases hc : c = d
    · subst hc
      simp [readUntil] at h
    · simp only [readUntil, hc, if_false] at h
      intro hm
      rcases List.mem_cons.mp hm with hm | hm
      · exact hc hm.symm
      · exact ih h hm

/-- The banner test of the TCP probes: `ReadString` succeeds and the line has
`S` exactly when the first line of the bytes received has `S`. -/
theorem banner_ok_iff (S : String) (conn : Conn) :
    (∃ banner, conn.ReadString '\n' = (banner, none) ∧ stringsContains banner S = true) ↔
      FirstLineHas S conn.incoming := by
  unfold Conn.ReadString FirstLineHas stringsContains
  constructor
  · rintro ⟨banner, h, hc⟩
    rcases hr : readUntil '\n' conn.incoming.data with ⟨line, b⟩
    rw [hr] at h
    cases b with
    | false => simp at h
    | true =>
      simp only [Prod.mk.injEq, and_true] at h
      subst h
      obtain ⟨l, rest, h1, h2, h3⟩ := readUntil_found '\n' conn.incoming.data (by rw [hr])
      rw [hr] at h3
      simp only at h3
      subst h3
      exact ⟨l, rest, h1, h2, (containsChars_iff _ _).mp hc⟩
  · rintro ⟨line, rest, h1, h2, h3⟩
    rw [h1, readUntil_split _ _ _ h2]
    exact ⟨String.mk (line ++ ['\n']), rfl, (containsChars_iff _ _).mpr h3⟩

/-! ### Argument maps and addresses -/

theorem index_of_lookup_some (m : ArgMap) (k v : String) (h : m.lookup k = some v) :
    m.index k = v := by
  simp [ArgMap.index, h]

theorem index_of_lookup_none (m : ArgMap) (k : String) (h : m.lookup k = none) :
    m.index k = "" := by
  simp [ArgMap.index, h]

/-- The address the three probes build is the expected one. -/
theorem address_eq (target : String) (port : Int) :
    (if stringsContains target ":" then sprintfBracketHostPort target port
      else sprintfHostPort target port) = expectedAddress target port := by
  unfold expectedAddress sprintfBracketHostPort sprintfHostPort stringsContains
  by_cases h : ':' ∈ target.data
  · have : containsChars target.data ":".data = true := (containsChars_singleton _ _).mpr h
    simp [h, this]
  · have : ¬ containsChars target.data ":".data = true :=
      fun hc => h ((containsChars_singleton _ _).mp hc)
    simp [h, this]

/-! ### The shape of a run -/

theorem smtp_RunTest_eq (tst : Test) (target : String) (opts : TestOptions) (net : Network) :
    SMTPTest.RunTest tst target opts net =
      match resolvePort 25 tst.Arguments with
      | (_, some err) => ⟨some err, World.init⟩
      | (port, none) =>
        bannerProbe "SMTP" "Banner doesn't look like an SMTP server" target port opts.Timeout net := by
  unfold SMTPTest.RunTest resolvePort
  simp only [address_eq]
  rcases (if tst.Arguments.index "port" ≠ "" then Atoi (tst.Arguments.index "port")
    else ((25 : Int), (none : Option Error))) with ⟨port, _ | err⟩
  · simp only [bannerProbe, World.dial, World.init, World.read, World.close]
    rcases net.tcp opts.Timeout (expectedAddress target port) with e | conn
    · simp
    · dsimp only
      generalize conn.ReadString '\n' = r
      rcases r with ⟨banner, _ | err⟩
      · by_cases hb : stringsContains banner "SMTP" = true <;> simp [hb]
      · simp
  · rfl

theorem ssh_RunTest_eq (PA : String → ArgMap) (s : SSHTest) (target : String)
    (net : Network) :
    SSHTest.RunTest PA s target net =
      (s, match resolvePort 22 (PA s.input) with
        | (_, some err) => ⟨some err, World.init⟩
        | (port, none) =>
          bannerProbe "OpenSSH" "Banner doesn't look like OpenSSH" target port
            s.options.Timeout net) := by
  unfold SSHTest.RunTest resolvePort
  simp only [address_eq]
  rcases (if (PA s.input).index "port" ≠ "" then Atoi ((PA s.input).index "port")
    else ((22 : Int), (none : Option Error))) with ⟨port, _ | err⟩
  · simp only [bannerProbe, World.dial, World.init, World.read, World.close]
    rcases net.tcp s.options.Timeout (expectedAddress target port) with e | conn
    · simp
    · dsimp only
      generalize conn.ReadString '\n' = r
      rcases r with ⟨banner, _ | err⟩
      · by_cases hb : stringsContains banner "OpenSSH" = true <;> simp [hb]
      · simp
  · rfl

theorem imaps_RunTest_eq (PA : String → ArgMap) (s : IMAPSTest) (target : String)
    (net : Network) :
    IMAPSTest.RunTest PA s target net =
      (s, match resolvePort 993 (PA s.input) with
        | (_, some err) => ⟨some err, World.init⟩
        | (port, none) =>
          tlsProbe (decide ((PA s.input).index "tls" = "insecure")) target port
            s.options.Timeout net) := by
  unfold IMAPSTest.RunTest resolvePort
  simp only [address_eq]
  rcases (if (PA s.input).index "port" ≠ "" then Atoi ((PA s.input).index "port")
    else ((993 : Int), (none : Option Error))) with ⟨port, _ | err⟩
  · simp only [tlsProbe, World.dialTLS, World.init]
    by_cases ht : (PA s.input).index "tls" = "insecure"
    · simp only [ht, if_true, decide_True]
      rcases net.imap s.options.Timeout (expectedAddress target port) true with _ | e <;> simp
    · simp only [ht, if_false, decide_False]
      rcases net.imap s.options.Timeout (expectedAddress target port) false with _ | e <;> simp
  · rfl

theorem resolvePort_bound (dflt : Int) (m : ArgMap) (s : String)
    (h : m.lookup "port" = some s) (hne : s ≠ "") : resolvePort dflt m = Atoi s := by
  unfold resolvePort
  rw [index_of_lookup_some m "port" s h, if_pos hne]

theorem resolvePort_default (dflt : Int) (m : ArgMap)
    (h : m.lookup "port" = none ∨ m.lookup "port" = some "") :
    resolvePort dflt m = (dflt, none) := by
  have hi : m.index "port" = "" := by
    rcases h with h | h
    · exact index_of_lookup_none m "port" h
    · exact index_of_lookup_some m "port" "" h
  unfold resolvePort
  rw [hi]
  simp

theorem resolvePort_effective (dflt : Int) (m : ArgMap) (p : Int)
    (h : EffectivePort dflt m p) : resolvePort dflt m = (p, none) := by
  unfold resolvePort
  rcases h with ⟨h1, h2⟩ | ⟨h1, h2⟩
  · rw [h1, h2]
    simp
  · rw [if_pos h1, h2]

theorem bannerProbe_head (S msg target : String) (port timeout : Int) (net : Network) :
    (bannerProbe S msg target port timeout net).world.trace.head? =
      some (Event.dial timeout (expectedAddress target port)) := by
  unfold bannerProbe
  rcases net.tcp timeout (expectedAddress target port) with e | conn
  · rfl
  · dsimp only
    generalize conn.ReadString '\n' = r
    rcases r with ⟨banner, _ | err⟩
    · by_cases hb : stringsContains banner S = true <;> simp [hb]
    · rfl

theorem readString_not_numError (conn : Conn) (e : Error)
    (h : (conn.ReadString '\n').2 = some e) : e.isNumError = false := by
  unfold Conn.ReadString at h
  generalize readUntil '\n' conn.incoming.data = r at h
  rcases r with ⟨line, b⟩
  cases b
  · simp only [Option.some.injEq] at h
    rw [← h]
    rfl
  · simp at h

theorem bannerProbe_not_numError (S msg target : String) (port timeout : Int) (net : Network) :
    ∀ e, (bannerProbe S msg target port timeout net).err = some e → e.isNumError = false := by
  intro e
  unfold bannerProbe
  rcases net.tcp timeout (expectedAddress target port) with e1 | conn
  · intro h
    simp only [Option.some.injEq] at h
    rw [← h]
    rfl
  · dsimp only
    have hr := readString_not_numError conn
    generalize conn.ReadString '\n' = r at hr
    rcases r with ⟨banner, _ | err⟩
    · by_cases hb : stringsContains banner S = true
      · simp [hb]
      · simp only [hb]
        intro h
        simp only [Bool.false_eq_true, if_false, Option.some.injEq] at h
        rw [← h]
        rfl
    · intro h
      simp only [Option.some.injEq] at h
      rw [← h]
      exact hr err rfl

theorem tlsProbe_trace (insecure : Bool) (target : String) (port timeout : Int) (net : Network) :
    (tlsProbe insecure target port timeout net).world.trace =
      [Event.dialTLS timeout (expectedAddress target port) insecure] := by
  unfold tlsProbe
  rcases net.imap timeout (expectedAddress target port) insecure with _ | e <;> rfl

theorem tlsProbe_err (insecure : Bool) (target : String) (port timeout : Int) (net : Network) :
    (tlsProbe insecure target port timeout net).err =
      (net.imap timeout (expectedAddress target port) insecure).map
        (fun f => Error.net f.msg) := by
  unfold tlsProbe
  rcases net.imap timeout (expectedAddress target port) insecure with _ | e <;> rfl

theorem fmtInt_natCast (n : Nat) : fmtInt (n : Int) = Nat.repr n := by
  unfold fmtInt
  have : ¬ ((n : Int) < 0) := by omega
  simp [this]

theorem expectedAddress_nat (t : String) (n : Nat) :
    expectedAddress t (n : Int) =
      (if ':' ∈ t.data then "[" ++ t ++ "]:" else t ++ ":") ++ Nat.repr n := by
  unfold expectedAddress
  rw [fmtInt_natCast]
  by_cases h : ':' ∈ t.data <;> simp [h]

/-! ## The claims -/

/-- C1 (as amended): for every `N` below `2 ^ 63`, when the argument map of a
probe binds `port` to the decimal text of `N`, the run does not end with a
number-parse error and its first network action is the dial of the address
built from the target and the decimal text of `N` (not the default port). -/
theorem port_override_in_range (N : Nat) (hN : N < 2 ^ 63) :
    (∀ (tst : Test) (target : String) (opts : TestOptions) (net : Network),
      tst.Arguments.lookup "port" = some (Nat.repr N) →
      (SMTPTest.RunTest tst target opts net).world.trace.head? =
          some (Event.dial opts.Timeout
            ((if ':' ∈ target.data then "[" ++ target ++ "]:" else target ++ ":") ++ Nat.repr N)) ∧
        ∀ e, (SMTPTest.RunTest tst target opts net).err = some e → e.isNumError = false) ∧
    (∀ (PA : String → ArgMap) (s : IMAPSTest) (target : String) (net : Network),
      (PA s.input).lookup "port" = some (Nat.repr N) →
      (∃ insecure, (IMAPSTest.RunTest PA s target net).2.world.trace.head? =
          some (Event.dialTLS s.options.Timeout
            ((if ':' ∈ target.data then "[" ++ target ++ "]:" else target ++ ":") ++ Nat.repr N)
            insecure)) ∧
        ∀ e, (IMAPSTest.RunTest PA s target net).2.err = some e → e.isNumError = false) ∧
    (∀ (PA : String → ArgMap) (s : SSHTest) (target : String) (net : Network),
      (PA s.input).lookup "port" = some (Nat.repr N) →
      (SSHTest.RunTest PA s target net).2.world.trace.head? =
          some (Event.dial s.options.Timeout
            ((if ':' ∈ target.data then "[" ++ target ++ "]:" else target ++ ":") ++ Nat.repr N)) ∧
        ∀ e, (SSHTest.RunTest PA s target net).2.err = some e → e.isNumError = false) := by
  refine ⟨?_, ?_, ?_⟩
  · intro tst target opts net h
    rw [smtp_RunTest_eq, resolvePort_bound 25 _ _ h (repr_ne_empty N), Atoi_repr N hN]
    exact ⟨by rw [← expectedAddress_nat]; exact bannerProbe_head _ _ _ _ _ _,
      bannerProbe_not_numError _ _ _ _ _ _⟩
  · intro PA s target net h
    rw [imaps_RunTest_eq, resolvePort_bound 993 _ _ h (repr_ne_empty N), Atoi_repr N hN]
    refine ⟨⟨decide ((PA s.input).index "tls" = "insecure"), ?_⟩, ?_⟩
    · show (tlsProbe _ target N s.options.Timeout net).world.trace.head? = _
      rw [tlsProbe_trace, ← expectedAddress_nat]
      rfl
    · intro e
      show (tlsProbe _ target N s.options.Timeout net).err = some e → _
      rw [tlsProbe_err]
      rcases net.imap s.options.Timeout (expectedAddress target N) _ with _ | m
      · simp
      · intro h
        simp only [Option.map_some', Option.some.injEq] at h
        rw [← h]
        rfl
  · intro PA s target net h
    rw [ssh_RunTest_eq, resolvePort_bound 22 _ _ h (repr_ne_empty N), Atoi_repr N hN]
    exact ⟨by rw [← expectedAddress_nat]; exact bannerProbe_head _ _ _ _ _ _,
      bannerProbe_not_numError _ _ _ _ _ _⟩

/-- C1 (witness): with `port` bound to `"2525"` the three probes dial port
2525 of the target. -/
theorem port_override_in_range_witness :
    (2525 < 2 ^ 63) ∧
    (SMTPTest.RunTest ⟨[("port", "2525")]⟩ "mail.example.com" ⟨5⟩
        (Network.serving "220 mail.example.com ESMTP\r\n")).world.trace.head? =
      some (Event.dial 5 "mail.example.com:2525") ∧
    (SSHTest.RunTest (constArguments [("port", "2525")]) ⟨"must run ssh with port 2525", ⟨5⟩⟩
        "::1" Network.refusing).2.world.trace.head? =
      some (Event.dial 5 "[::1]:2525") :=
  ⟨by norm_num,
   ((port_override_in_range 2525 (by norm_num)).1 ⟨[("port", "2525")]⟩ "mail.example.com" ⟨5⟩
      (Network.serving "220 mail.example.com ESMTP\r\n") (by decide)).1,
   ((port_override_in_range 2525 (by norm_num)).2.2 (constArguments [("port", "2525")])
      ⟨"must run ssh with port 2525", ⟨5⟩⟩ "::1" Network.refusing (by decide)).1⟩

/-- C1 (counterexample): the decimal text of `2 ^ 63` is bound to `port`, and
each probe stops with the range error of `Atoi` before any network action. -/
theorem port_override_counterexample :
    Nat.repr (2 ^ 63) = "9223372036854775808" ∧
    SMTPTest.RunTest ⟨[("port", Nat.repr (2 ^ 63))]⟩ "mail.example.com" ⟨5⟩
        (Network.serving "220 mail.example.com ESMTP\r\n") =
      ⟨some (Error.outOfRange "Atoi" "9223372036854775808"), ⟨[], 0⟩⟩ ∧
    (IMAPSTest.RunTest (constArguments [("port", Nat.repr (2 ^ 63))]) ⟨"", ⟨5⟩⟩
        "mail.example.com" (Network.serving "")).2 =
      ⟨some (Error.outOfRange "Atoi" "9223372036854775808"), ⟨[], 0⟩⟩ ∧
    (SSHTest.RunTest (constArguments [("port", Nat.repr (2 ^ 63))]) ⟨"", ⟨5⟩⟩
        "mail.example.com" (Network.serving "SSH-2.0-OpenSSH_8.9\r\n")).2 =
      ⟨some (Error.outOfRange "Atoi" "9223372036854775808"), ⟨[], 0⟩⟩ := by
  decide

theorem expectedAddress_lit (t : String) (n : Nat) (txt : String) (h : Nat.repr n = txt) :
    expectedAddress t (n : Int) =
      (if ':' ∈ t.data then "[" ++ t ++ "]:" else t ++ ":") ++ txt := by
  rw [expectedAddress_nat, h]

/-- C2: when the argument map has no `port` entry, or binds it to the empty
string, the first network action of a run is the dial of the target at port
25 for SMTP, 993 for IMAPS and 22 for SSH. -/
theorem default_port :
    (∀ (tst : Test) (target : String) (opts : TestOptions) (net : Network),
      (tst.Arguments.lookup "port" = none ∨ tst.Arguments.lookup "port" = some "") →
      (SMTPTest.RunTest tst target opts net).world.trace.head? =
        some (Event.dial opts.Timeout
          ((if ':' ∈ target.data then "[" ++ target ++ "]:" else target ++ ":") ++ "25"))) ∧
    (∀ (PA : String → ArgMap) (s : IMAPSTest) (target : String) (net : Network),
      ((PA s.input).lookup "port" = none ∨ (PA s.input).lookup "port" = some "") →
      ∃ insecure, (IMAPSTest.RunTest PA s target net).2.world.trace.head? =
        some (Event.dialTLS s.options.Timeout
          ((if ':' ∈ target.data then "[" ++ target ++ "]:" else target ++ ":") ++ "993")
          insecure)) ∧
    (∀ (PA : String → ArgMap) (s : SSHTest) (target : String) (net : Network),
      ((PA s.input).lookup "port" = none ∨ (PA s.input).lookup "port" = some "") →
      (SSHTest.RunTest PA s target net).2.world.trace.head? =
        some (Event.dial s.options.Timeout
          ((if ':' ∈ target.data then "[" ++ target ++ "]:" else target ++ ":") ++ "22"))) := by
  refine ⟨?_, ?_, ?_⟩
  · intro tst target opts net h
    rw [smtp_RunTest_eq, resolvePort_default 25 _ h, ← expectedAddress_lit target 25 "25" rfl]
    exact bannerProbe_head _ _ _ _ _ _
  · intro PA s target net h
    rw [imaps_RunTest_eq, resolvePort_default 993 _ h,
      ← expectedAddress_lit target 993 "993" rfl]
    refine ⟨decide ((PA s.input).index "tls" = "insecure"), ?_⟩
    show (tlsProbe _ target 993 s.options.Timeout net).world.trace.head? = _
    rw [tlsProbe_trace]
    rfl
  · intro PA s target net h
    rw [ssh_RunTest_eq, resolvePort_default 22 _ h, ← expectedAddress_lit target 22 "22" rfl]
    exact bannerProbe_head _ _ _ _ _ _

/-- C2 (witness): without a `port` argument SMTP dials port 25 and SSH, given
an empty `port`, dials port 22. -/
theorem default_port_witness :
    (SMTPTest.RunTest ⟨[]⟩ "mail.example.com" ⟨5⟩
        (Network.serving "220 mail.example.com ESMTP\r\n")).world.trace.head? =
      some (Event.dial 5 "mail.example.com:25") ∧
    (SSHTest.RunTest (constArguments [("port", "")]) ⟨"must run ssh", ⟨5⟩⟩
        "2001:db8::1" Network.refusing).2.world.trace.head? =
      some (Event.dial 5 "[2001:db8::1]:22") :=
  ⟨default_port.1 ⟨[]⟩ "mail.example.com" ⟨5⟩
      (Network.serving "220 mail.example.com ESMTP\r\n") (Or.inl (by decide)),
   default_port.2.2 (constArguments [("port", "")]) ⟨"must run ssh", ⟨5⟩⟩
      "2001:db8::1" Network.refusing (Or.inr (by decide))⟩

theorem not_fits_of_not_literal (s : String) (h : ¬ IsIntegerLiteral s) :
    ¬ ∃ v, FitsInt s v := by
  rintro ⟨v, hv, _⟩
  apply h
  unfold IsIntegerLiteral
  rw [hv]
  rfl

/-- A `port` text that `Atoi` rejects ends each run with a number-parse error
before any network action. -/
theorem rejected_port_no_dial (txt : String) (hne : txt ≠ "") (hnf : ¬ ∃ v, FitsInt txt v) :
    (∀ (tst : Test) (target : String) (opts : TestOptions) (net : Network),
      tst.Arguments.lookup "port" = some txt →
      ∃ e, e.isNumError = true ∧
        SMTPTest.RunTest tst target opts net = ⟨some e, ⟨[], 0⟩⟩) ∧
    (∀ (PA : String → ArgMap) (s : IMAPSTest) (target : String) (net : Network),
      (PA s.input).lookup "port" = some txt →
      ∃ e, e.isNumError = true ∧
        (IMAPSTest.RunTest PA s target net).2 = ⟨some e, ⟨[], 0⟩⟩) ∧
    (∀ (PA : String → ArgMap) (s : SSHTest) (target : String) (net : Network),
      (PA s.input).lookup "port" = some txt →
      ∃ e, e.isNumError = true ∧
        (SSHTest.RunTest PA s target net).2 = ⟨some e, ⟨[], 0⟩⟩) := by
  obtain ⟨e, he, hnum⟩ := Atoi_not_fits txt hnf
  have hA : Atoi txt = ((Atoi txt).1, some e) := by rw [← he]
  refine ⟨?_, ?_, ?_⟩
  · intro tst target opts net h
    refine ⟨e, hnum, ?_⟩
    rw [smtp_RunTest_eq, resolvePort_bound 25 _ _ h hne, hA]
    rfl
  · intro PA s target net h
    refine ⟨e, hnum, ?_⟩
    rw [imaps_RunTest_eq, resolvePort_bound 993 _ _ h hne, hA]
    rfl
  · intro PA s target net h
    refine ⟨e, hnum, ?_⟩
    rw [ssh_RunTest_eq, resolvePort_bound 22 _ _ h hne, hA]
    rfl

/-- C3: when the argument map binds `port` to a non-empty text that is not an
integer literal, each probe returns a number-parse error and performs no
network action: the trace is empty and no connection was opened. -/
theorem non_numeric_port_fails_before_dial (txt : String) (hne : txt ≠ "")
    (hnl : ¬ IsIntegerLiteral txt) :
    (∀ (tst : Test) (target : String) (opts : TestOptions) (net : Network),
      tst.Arguments.lookup "port" = some txt →
      ∃ e, e.isNumError = true ∧
        SMTPTest.RunTest tst target opts net = ⟨some e, ⟨[], 0⟩⟩) ∧
    (∀ (PA : String → ArgMap) (s : IMAPSTest) (target : String) (net : Network),
      (PA s.input).lookup "port" = some txt →
      ∃ e, e.isNumError = true ∧
        (IMAPSTest.RunTest PA s target net).2 = ⟨some e, ⟨[], 0⟩⟩) ∧
    (∀ (PA : String → ArgMap) (s : SSHTest) (target : String) (net : Network),
      (PA s.input).lookup "port" = some txt →
      ∃ e, e.isNumError = true ∧
        (SSHTest.RunTest PA s target net).2 = ⟨some e, ⟨[], 0⟩⟩) := by
  exact rejected_port_no_dial txt hne (not_fits_of_not_literal txt hnl)

/-- C3 (witness): `port abc` makes the SMTP probe fail before it dials. -/
theorem non_numeric_port_fails_before_dial_witness :
    "abc" ≠ "" ∧ ¬ IsIntegerLiteral "abc" ∧
    ∃ e, e.isNumError = true ∧
      SMTPTest.RunTest ⟨[("port", "abc")]⟩ "mail.example.com" ⟨5⟩
        (Network.serving "220 mail.example.com ESMTP\r\n") = ⟨some e, ⟨[], 0⟩⟩ :=
  ⟨by decide, by decide,
   (non_numeric_port_fails_before_dial "abc" (by decide) (by decide)).1 ⟨[("port", "abc")]⟩
      "mail.example.com" ⟨5⟩ (Network.serving "220 mail.example.com ESMTP\r\n") (by decide)⟩

/-- C4: for every target `t` and effective port `p`, the address each probe
dials is `"[" ++ t ++ "]:" ++ decimal p` when `t` contains `':'` and
`t ++ ":" ++ decimal p` when it does not; the three probes build the same
address. -/
theorem dial_address_format (t : String) (p : Int) :
    (∀ (tst : Test) (opts : TestOptions) (net : Network),
      EffectivePort 25 tst.Arguments p →
      (SMTPTest.RunTest tst t opts net).world.trace.head? =
        some (Event.dial opts.Timeout
          (if ':' ∈ t.data then "[" ++ t ++ "]:" ++ fmtInt p else t ++ ":" ++ fmtInt p))) ∧
    (∀ (PA : String → ArgMap) (s : IMAPSTest) (net : Network),
      EffectivePort 993 (PA s.input) p →
      ∃ insecure, (IMAPSTest.RunTest PA s t net).2.world.trace.head? =
        some (Event.dialTLS s.options.Timeout
          (if ':' ∈ t.data then "[" ++ t ++ "]:" ++ fmtInt p else t ++ ":" ++ fmtInt p)
          insecure)) ∧
    (∀ (PA : String → ArgMap) (s : SSHTest) (net : Network),
      EffectivePort 22 (PA s.input) p →
      (SSHTest.RunTest PA s t net).2.world.trace.head? =
        some (Event.dial s.options.Timeout
          (if ':' ∈ t.data then "[" ++ t ++ "]:" ++ fmtInt p else t ++ ":" ++ fmtInt p))) := by
  refine ⟨?_, ?_, ?_⟩
  · intro tst opts net h
    rw [smtp_RunTest_eq, resolvePort_effective 25 _ p h]
    exact bannerProbe_head _ _ _ _ _ _
  · intro PA s net h
    rw [imaps_RunTest_eq, resolvePort_effective 993 _ p h]
    refine ⟨decide ((PA s.input).index "tls" = "insecure"), ?_⟩
    show (tlsProbe _ t p s.options.Timeout net).world.trace.head? = _
    rw [tlsProbe_trace]
    rfl
  · intro PA s net h
    rw [ssh_RunTest_eq, resolvePort_effective 22 _ p h]
    exact bannerProbe_head _ _ _ _ _ _

/-- C4 (witness): an IPv6 target is bracketed, a host name is not. -/
theorem dial_address_format_witness :
    EffectivePort 25 [("port", "587")] 587 ∧
    (SMTPTest.RunTest ⟨[("port", "587")]⟩ "2001:db8::1" ⟨5⟩ Network.refusing).world.trace.head? =
      some (Event.dial 5 "[2001:db8::1]:587") ∧
    EffectivePort 22 [] 22 ∧
    (SSHTest.RunTest (constArguments []) ⟨"must run ssh", ⟨5⟩⟩ "host.example.com"
        Network.refusing).2.world.trace.head? =
      some (Event.dial 5 "host.example.com:22") :=
  ⟨Or.inr (by decide),
   (dial_address_format "2001:db8::1" 587).1 ⟨[("port", "587")]⟩ ⟨5⟩ Network.refusing
      (Or.inr (by decide)),
   Or.inl (by decide),
   (dial_address_format "host.example.com" 22).2.2 (constArguments []) ⟨"must run ssh", ⟨5⟩⟩
      Network.refusing (Or.inl (by decide))⟩

theorem bannerProbe_ok_iff (S msg target : String) (port timeout : Int) (net : Network)
    (conn : Conn) (h : net.tcp timeout (expectedAddress target port) = .ok conn) :
    (bannerProbe S msg target port timeout net).err = none ↔ FirstLineHas S conn.incoming := by
  rw [← banner_ok_iff]
  unfold bannerProbe
  rw [h]
  dsimp only
  generalize conn.ReadString '\n' = r
  rcases r with ⟨banner, _ | err⟩
  · by_cases hb : stringsContains banner S = true
    · simp [hb]
    · simp [hb]
  · simp

/-- C5: given that the port parses and the TCP connect succeeds, the SMTP
probe (with `S = "SMTP"`) and the SSH probe (with `S = "OpenSSH"`) return no
error exactly when the bytes received contain a newline and the part up to
and including the first newline contains `S`.  The sample banners of the
specification behave as it says; a stream that ends before a newline and a
stream whose second line only has `S` are failures. -/
theorem banner_validation :
    (∀ (tst : Test) (target : String) (opts : TestOptions) (net : Network) (p : Int)
        (conn : Conn),
      EffectivePort 25 tst.Arguments p →
      net.tcp opts.Timeout (expectedAddress target p) = .ok conn →
      ((SMTPTest.RunTest tst target opts net).err = none ↔
        FirstLineHas "SMTP" conn.incoming)) ∧
    (∀ (PA : String → ArgMap) (s : SSHTest) (target : String) (net : Network) (p : Int)
        (conn : Conn),
      EffectivePort 22 (PA s.input) p →
      net.tcp s.options.Timeout (expectedAddress target p) = .ok conn →
      ((SSHTest.RunTest PA s target net).2.err = none ↔
        FirstLineHas "OpenSSH" conn.incoming)) ∧
    (SMTPTest.RunTest ⟨[]⟩ "127.0.0.1" ⟨5⟩
        (Network.serving "220 test.example SMTP ready\r\n")).err = none ∧
    (SMTPTest.RunTest ⟨[]⟩ "127.0.0.1" ⟨5⟩
        (Network.serving "220 test.example ready\r\n")).err =
      some (Error.text "Banner doesn't look like an SMTP server") ∧
    (SSHTest.RunTest (constArguments []) ⟨"", ⟨5⟩⟩ "127.0.0.1"
        (Network.serving "SSH-2.0-OpenSSH_8.9\r\n")).2.err = none ∧
    (SSHTest.RunTest (constArguments []) ⟨"", ⟨5⟩⟩ "127.0.0.1"
        (Network.serving "SSH-2.0-libssh\r\n")).2.err =
      some (Error.text "Banner doesn't look like OpenSSH") ∧
    (SMTPTest.RunTest ⟨[]⟩ "127.0.0.1" ⟨5⟩
        (Network.serving "220 test.example SMTP ready")).err = some (Error.net "EOF") ∧
    (SMTPTest.RunTest ⟨[]⟩ "127.0.0.1" ⟨5⟩
        (Network.serving "220 test.example ready\r\n250 SMTP\r\n")).err =
      some (Error.text "Banner doesn't look like an SMTP server") := by
  refine ⟨?_, ?_, by decide, by decide, by decide, by decide, by decide, by decide⟩
  · intro tst target opts net p conn hp hc
    rw [smtp_RunTest_eq, resolvePort_effective 25 _ p hp]
    exact bannerProbe_ok_iff _ _ _ _ _ _ conn hc
  · intro PA s target net p conn hp hc
    rw [ssh_RunTest_eq, resolvePort_effective 22 _ p hp]
    exact bannerProbe_ok_iff _ _ _ _ _ _ conn hc

/-- C5 (witness): the banner `"SSH-2.0-OpenSSH_8.9\r\n"` received on port 2222
makes the SSH probe succeed, since its first line has `OpenSSH`. -/
theorem banner_validation_witness :
    EffectivePort 22 [("port", "2222")] 2222 ∧
    FirstLineHas "OpenSSH" "SSH-2.0-OpenSSH_8.9\r\n" ∧
    (SSHTest.RunTest (constArguments [("port", "2222")]) ⟨"", ⟨5⟩⟩ "127.0.0.1"
        (Network.serving "SSH-2.0-OpenSSH_8.9\r\n")).2.err = none :=
  have hp : EffectivePort 22 [("port", "2222")] 2222 := Or.inr (by decide)
  have hl : FirstLineHas "OpenSSH" "SSH-2.0-OpenSSH_8.9\r\n" :=
    ⟨"SSH-2.0-OpenSSH_8.9\r".data, [], by decide, by decide,
      "SSH-2.0-".data, "_8.9\r\n".data, by decide⟩
  ⟨hp, hl,
   (banner_validation.2.1 (constArguments [("port", "2222")]) ⟨"", ⟨5⟩⟩ "127.0.0.1"
      (Network.serving "SSH-2.0-OpenSSH_8.9\r\n") 2222 ⟨"SSH-2.0-OpenSSH_8.9\r\n", "EOF"⟩
      hp rfl).mpr hl⟩

theorem index_eq_insecure_iff (m : ArgMap) :
    m.index "tls" = "insecure" ↔ m.lookup "tls" = some "insecure" := by
  unfold ArgMap.index
  cases h : m.lookup "tls" with
  | none => simp
  | some v => simp

/-- C6: for every instruction line whose port parses, the IMAPS probe makes
exactly one TLS dial, with certificate verification skipped exactly when the
parsed argument map binds `tls` to `"insecure"`, and it returns no error
exactly when that dial returns none. -/
theorem imaps_tls_mode (PA : String → ArgMap) (s : IMAPSTest) (target : String)
    (net : Network) (p : Int) (hp : EffectivePort 993 (PA s.input) p) :
    ∃ insecure : Bool,
      (insecure = true ↔ (PA s.input).lookup "tls" = some "insecure") ∧
      (IMAPSTest.RunTest PA s target net).2.world.trace =
        [Event.dialTLS s.options.Timeout (expectedAddress target p) insecure] ∧
      ((IMAPSTest.RunTest PA s target net).2.err = none ↔
        net.imap s.options.Timeout (expectedAddress target p) insecure = none) := by
  refine ⟨decide ((PA s.input).index "tls" = "insecure"), ?_, ?_, ?_⟩
  · rw [decide_eq_true_iff, index_eq_insecure_iff]
  · rw [imaps_RunTest_eq, resolvePort_effective 993 _ p hp]
    exact tlsProbe_trace _ _ _ _ _
  · rw [imaps_RunTest_eq, resolvePort_effective 993 _ p hp]
    show (tlsProbe _ target p s.options.Timeout net).err = none ↔ _
    rw [tlsProbe_err]
    simp

/-- C6 (witness): `tls insecure` dials with verification skipped and so gets
through to a server with a self-signed certificate; `tls strict` and a line
without a `tls` option dial with verification on. -/
theorem imaps_tls_mode_witness :
    EffectivePort 993 [("tls", "insecure")] 993 ∧
    (∃ insecure : Bool,
      (insecure = true ↔
        (constArguments [("tls", "insecure")] "with tls insecure").lookup "tls" =
          some "insecure") ∧
      (IMAPSTest.RunTest (constArguments [("tls", "insecure")]) ⟨"with tls insecure", ⟨5⟩⟩
          "imap.example.com" (Network.selfSigned "")).2.world.trace =
        [Event.dialTLS 5 (expectedAddress "imap.example.com" 993) insecure] ∧
      ((IMAPSTest.RunTest (constArguments [("tls", "insecure")]) ⟨"with tls insecure", ⟨5⟩⟩
          "imap.example.com" (Network.selfSigned "")).2.err = none ↔
        (Network.selfSigned "").imap 5 (expectedAddress "imap.example.com" 993) insecure =
          none)) ∧
    (IMAPSTest.RunTest (constArguments [("tls", "insecure")]) ⟨"with tls insecure", ⟨5⟩⟩
        "imap.example.com" (Network.selfSigned "")).2 =
      ⟨none, ⟨[Event.dialTLS 5 "imap.example.com:993" true], 1⟩⟩ ∧
    (IMAPSTest.RunTest (constArguments [("tls", "strict")]) ⟨"with tls strict", ⟨5⟩⟩
        "imap.example.com" (Network.selfSigned "")).2.world.trace =
      [Event.dialTLS 5 "imap.example.com:993" false] ∧
    (IMAPSTest.RunTest (constArguments []) ⟨"", ⟨5⟩⟩
        "imap.example.com" (Network.selfSigned "")).2.world.trace =
      [Event.dialTLS 5 "imap.example.com:993" false] :=
  ⟨Or.inl (by decide),
   imaps_tls_mode (constArguments [("tls", "insecure")]) ⟨"with tls insecure", ⟨5⟩⟩
      "imap.example.com" (Network.selfSigned "") 993 (Or.inl (by decide)),
   by decide, by decide, by decide⟩

/-- C7 (the code at the failing inputs): when the peer closes the stream
before sending a newline, the SMTP and SSH probes return the read error with
the connection they opened still open and without a `Close` in the trace;
the IMAPS probe returns success with the client's connection still open.
After a banner was read, both TCP probes have closed the connection. -/
theorem connection_left_open :
    SMTPTest.RunTest ⟨[]⟩ "mail.example.com" ⟨5⟩ (Network.serving "220 mail.example.com") =
      ⟨some (Error.net "EOF"), ⟨[Event.dial 5 "mail.example.com:25", Event.read], 1⟩⟩ ∧
    (SSHTest.RunTest (constArguments []) ⟨"", ⟨5⟩⟩ "host.example.com"
        (Network.serving "")).2 =
      ⟨some (Error.net "EOF"), ⟨[Event.dial 5 "host.example.com:22", Event.read], 1⟩⟩ ∧
    (IMAPSTest.RunTest (constArguments []) ⟨"", ⟨5⟩⟩ "imap.example.com"
        (Network.serving "")).2 =
      ⟨none, ⟨[Event.dialTLS 5 "imap.example.com:993" false], 1⟩⟩ ∧
    SMTPTest.RunTest ⟨[]⟩ "mail.example.com" ⟨5⟩
        (Network.serving "220 mail.example.com ESMTP\r\n") =
      ⟨none, ⟨[Event.dial 5 "mail.example.com:25", Event.read, Event.close], 0⟩⟩ ∧
    (SSHTest.RunTest (constArguments []) ⟨"", ⟨5⟩⟩ "host.example.com"
        (Network.serving "SSH-2.0-dropbear\r\n")).2 =
      ⟨some (Error.text "Banner doesn't look like OpenSSH"),
        ⟨[Event.dial 5 "host.example.com:22", Event.read, Event.close], 0⟩⟩ := by
  decide

/-- C8 (the code at the failing inputs): `SMTPTest.Arguments` declares that a
`port` value is a run of decimal digits, which `"+25"`, `"+993"` and `"-1"`
are not.  Yet with `port` bound to `"+25"` the SSH probe dials port 25 and
succeeds, with `"+993"` the IMAPS probe dials port 993 and succeeds, and with
`"-1"` both hand the dialer an address whose port is `-1` and return the
dialer's error, not a number-parse error. -/
theorem signed_port_reaches_dial :
    SMTPTest.Arguments.lookup "port" = some "^[0-9]+$" ∧
    ¬ AllDigits "+25".data ∧ ¬ AllDigits "+993".data ∧ ¬ AllDigits "-1".data ∧
    (SSHTest.RunTest (constArguments [("port", "+25")]) ⟨"with port +25", ⟨5⟩⟩
        "host.example.com" (Network.serving "SSH-2.0-OpenSSH_8.9\r\n")).2 =
      ⟨none, ⟨[Event.dial 5 "host.example.com:25", Event.read, Event.close], 0⟩⟩ ∧
    (IMAPSTest.RunTest (constArguments [("port", "+993")]) ⟨"with port +993", ⟨5⟩⟩
        "imap.example.com" (Network.serving "")).2 =
      ⟨none, ⟨[Event.dialTLS 5 "imap.example.com:993" false], 1⟩⟩ ∧
    (SSHTest.RunTest (constArguments [("port", "-1")]) ⟨"with port -1", ⟨5⟩⟩
        "host.example.com" Network.invalidPort).2 =
      ⟨some (Error.net "invalid port"), ⟨[Event.dial 5 "host.example.com:-1"], 0⟩⟩ ∧
    (IMAPSTest.RunTest (constArguments [("port", "-1")]) ⟨"with port -1", ⟨5⟩⟩
        "imap.example.com" Network.invalidPort).2 =
      ⟨some (Error.net "invalid port"),
        ⟨[Event.dialTLS 5 "imap.example.com:-1" false], 0⟩⟩ := by
  decide

theorem imaps_RunTest_receiver (PA : String → ArgMap) (s : IMAPSTest) (target : String)
    (net : Network) : (IMAPSTest.RunTest PA s target net).1 = s := by
  rw [imaps_RunTest_eq]

theorem ssh_RunTest_receiver (PA : String → ArgMap) (s : SSHTest) (target : String)
    (net : Network) : (SSHTest.RunTest PA s target net).1 = s := by
  rw [ssh_RunTest_eq]

/-- The first network action of an IMAPS run and, when there is none, its
whole outcome do not depend on the network. -/
theorem imaps_RunTest_plan (PA : String → ArgMap) (s : IMAPSTest) (target : String)
    (net1 net2 : Network) :
    (IMAPSTest.RunTest PA s target net2).2.world.trace.head? =
        (IMAPSTest.RunTest PA s target net1).2.world.trace.head? ∧
      ((IMAPSTest.RunTest PA s target net1).2.world.trace = [] →
        (IMAPSTest.RunTest PA s target net2).2 = (IMAPSTest.RunTest PA s target net1).2) := by
  rw [imaps_RunTest_eq, imaps_RunTest_eq]
  rcases resolvePort 993 (PA s.input) with ⟨port, _ | err⟩
  · dsimp only
    rw [tlsProbe_trace, tlsProbe_trace]
    simp
  · simp

/-- The first network action of an SSH run and, when there is none, its whole
outcome do not depend on the network. -/
theorem ssh_RunTest_plan (PA : String → ArgMap) (s : SSHTest) (target : String)
    (net1 net2 : Network) :
    (SSHTest.RunTest PA s target net2).2.world.trace.head? =
        (SSHTest.RunTest PA s target net1).2.world.trace.head? ∧
      ((SSHTest.RunTest PA s target net1).2.world.trace = [] →
        (SSHTest.RunTest PA s target net2).2 = (SSHTest.RunTest PA s target net1).2) := by
  rw [ssh_RunTest_eq, ssh_RunTest_eq]
  rcases resolvePort 22 (PA s.input) with ⟨port, _ | err⟩
  · dsimp only
    rw [bannerProbe_head, bannerProbe_head]
    refine ⟨rfl, fun h => ?_⟩
    have := bannerProbe_head "OpenSSH" "Banner doesn't look like OpenSSH" target port
      s.options.Timeout net1
    rw [h] at this
    cases this
  · simp

/-- C9: for the IMAPS and SSH probes `SetLine` sets `input` and keeps
`options`, `SetOptions` sets `options` and keeps `input`, the two setters
commute, and `RunTest` returns the receiver unchanged for every target and
network.  Hence a second run on the same instance, on whatever network, has
the same first network action (timeout, dial address with its port, TLS mode)
as the first, the same outcome when the first stopped before dialing, and the
same outcome altogether on the same network. -/
theorem no_state_retained :
    (∀ (s : IMAPSTest) (l : String) (o : TestOptions),
      (s.SetLine l).input = l ∧ (s.SetLine l).options = s.options ∧
      (s.SetOptions o).options = o ∧ (s.SetOptions o).input = s.input ∧
      (s.SetLine l).SetOptions o = (s.SetOptions o).SetLine l) ∧
    (∀ (s : SSHTest) (l : String) (o : TestOptions),
      (s.SetLine l).input = l ∧ (s.SetLine l).options = s.options ∧
      (s.SetOptions o).options = o ∧ (s.SetOptions o).input = s.input ∧
      (s.SetLine l).SetOptions o = (s.SetOptions o).SetLine l) ∧
    (∀ (PA : String → ArgMap) (s : IMAPSTest) (target : String) (net1 net2 : Network),
      (IMAPSTest.RunTest PA s target net1).1 = s ∧
      (IMAPSTest.RunTest PA (IMAPSTest.RunTest PA s target net1).1 target net2).2.world.trace.head? =
        (IMAPSTest.RunTest PA s target net1).2.world.trace.head? ∧
      ((IMAPSTest.RunTest PA s target net1).2.world.trace = [] →
        (IMAPSTest.RunTest PA (IMAPSTest.RunTest PA s target net1).1 target net2).2 =
          (IMAPSTest.RunTest PA s target net1).2) ∧
      IMAPSTest.RunTest PA (IMAPSTest.RunTest PA s target net1).1 target net1 =
        IMAPSTest.RunTest PA s target net1) ∧
    (∀ (PA : String → ArgMap) (s : SSHTest) (target : String) (net1 net2 : Network),
      (SSHTest.RunTest PA s target net1).1 = s ∧
      (SSHTest.RunTest PA (SSHTest.RunTest PA s target net1).1 target net2).2.world.trace.head? =
        (SSHTest.RunTest PA s target net1).2.world.trace.head? ∧
      ((SSHTest.RunTest PA s target net1).2.world.trace = [] →
        (SSHTest.RunTest PA (SSHTest.RunTest PA s target net1).1 target net2).2 =
          (SSHTest.RunTest PA s target net1).2) ∧
      SSHTest.RunTest PA (SSHTest.RunTest PA s target net1).1 target net1 =
        SSHTest.RunTest PA s target net1) := by
  refine ⟨?_, ?_, ?_, ?_⟩
  · intro s l o
    exact ⟨rfl, rfl, rfl, rfl, rfl⟩
  · intro s l o
    exact ⟨rfl, rfl, rfl, rfl, rfl⟩
  · intro PA s target net1 net2
    rw [imaps_RunTest_receiver]
    exact ⟨rfl, (imaps_RunTest_plan PA s target net1 net2).1,
      (imaps_RunTest_plan PA s target net1 net2).2, rfl⟩
  · intro PA s target net1 net2
    rw [ssh_RunTest_receiver]
    exact ⟨rfl, (ssh_RunTest_plan PA s target net1 net2).1,
      (ssh_RunTest_plan PA s target net1 net2).2, rfl⟩

/-- C9 (witness): a run that stopped at the port parse is repeated unchanged
by a second run on the same instance, on another network. -/
theorem no_state_retained_witness :
    (IMAPSTest.RunTest (constArguments [("port", "abc")]) ⟨"with port abc", ⟨5⟩⟩
        "imap.example.com" Network.refusing).2.world.trace = [] ∧
    (IMAPSTest.RunTest (constArguments [("port", "abc")])
        (IMAPSTest.RunTest (constArguments [("port", "abc")]) ⟨"with port abc", ⟨5⟩⟩
          "imap.example.com" Network.refusing).1 "imap.example.com" (Network.serving "")).2 =
      (IMAPSTest.RunTest (constArguments [("port", "abc")]) ⟨"with port abc", ⟨5⟩⟩
        "imap.example.com" Network.refusing).2 :=
  ⟨by decide,
   (no_state_retained.2.2.1 (constArguments [("port", "abc")]) ⟨"with port abc", ⟨5⟩⟩
      "imap.example.com" Network.refusing (Network.serving "")).2.2.1 (by decide)⟩

theorem ne_empty_of_allDigits (txt : String) (h : AllDigits txt.data) : txt ≠ "" := by
  intro he
  rw [he] at h
  exact h.1 rfl

/-- C10 (as amended): the pattern `SMTPTest.Arguments` declares for `port` is
`^[0-9]+$`, and for every non-empty text of ASCII decimal digits, leading
zeros included, whose number is below `2 ^ 63`, the integer parse of
`SMTPTest.RunTest` succeeds with that number and the probe dials the address
built with its decimal text. -/
theorem declared_pattern_parses_in_range (txt : String) (hd : AllDigits txt.data)
    (hr : digitsValue txt.data < 2 ^ 63) :
    SMTPTest.Arguments.lookup "port" = some "^[0-9]+$" ∧
    Atoi txt = ((digitsValue txt.data : Int), none) ∧
    ∀ (tst : Test) (target : String) (opts : TestOptions) (net : Network),
      tst.Arguments.lookup "port" = some txt →
      (SMTPTest.RunTest tst target opts net).world.trace.head? =
        some (Event.dial opts.Timeout
          ((if ':' ∈ target.data then "[" ++ target ++ "]:" else target ++ ":") ++
            Nat.repr (digitsValue txt.data))) := by
  have hf : FitsInt txt (digitsValue txt.data : Int) :=
    ⟨literalValue_digits _ hd, by omega, by omega⟩
  refine ⟨by decide, Atoi_fits txt _ hf, ?_⟩
  intro tst target opts net h
  rw [smtp_RunTest_eq, resolvePort_bound 25 _ _ h (ne_empty_of_allDigits txt hd),
    Atoi_fits txt _ hf, ← expectedAddress_nat]
  exact bannerProbe_head _ _ _ _ _ _

/-- C10 (witness): `"0025"` matches the pattern and is parsed as 25. -/
theorem declared_pattern_parses_in_range_witness :
    AllDigits "0025".data ∧ digitsValue "0025".data = 25 ∧
    Atoi "0025" = (25, none) ∧
    (SMTPTest.RunTest ⟨[("port", "0025")]⟩ "mail.example.com" ⟨5⟩
        Network.refusing).world.trace.head? =
      some (Event.dial 5 "mail.example.com:25") :=
  ⟨by decide, by decide,
   (declared_pattern_parses_in_range "0025" (by decide) (by decide)).2.1,
   (declared_pattern_parses_in_range "0025" (by decide) (by decide)).2.2 ⟨[("port", "0025")]⟩
      "mail.example.com" ⟨5⟩ Network.refusing (by decide)⟩

/-- C10 (counterexample): `"18446744073709551616"` is a non-empty run of
decimal digits, so it matches `^[0-9]+$`, but `Atoi` reports a range error on
it and `SMTPTest.RunTest` returns that error. -/
theorem declared_pattern_counterexample :
    AllDigits "18446744073709551616".data ∧
    Atoi "18446744073709551616" =
      (9223372036854775807, some (Error.outOfRange "Atoi" "18446744073709551616")) ∧
    SMTPTest.RunTest ⟨[("port", "18446744073709551616")]⟩ "mail.example.com" ⟨5⟩
        (Network.serving "220 mail.example.com ESMTP\r\n") =
      ⟨some (Error.outOfRange "Atoi" "18446744073709551616"), ⟨[], 0⟩⟩ := by
  decide

end Overseer
